import Mathlib

/-!
Shallow embedding of the field-inspection management application
(React SPA + Supabase row-level-security policies) and proofs about it.

Numbers of the JavaScript source are embedded as rationals (`ℚ`), machine
counts as naturals, `Math.round` as `jsRound` below (floor of x + 1/2,
which is JavaScript's rounding rule, also for negative arguments).
Optional / nullable values are `Option`; JavaScript string truthiness
(`if (s)`) is `s ≠ ""` on present strings.
-/

namespace App

/-- JavaScript `Math.round`: round half toward positive infinity. -/
def jsRound (x : ℚ) : ℤ := ⌊x + 1/2⌋

/-- Truthiness of a nullable / optional string, as JavaScript `if (s)`. -/
def strTruthy : Option String → Bool
  | none => false
  | some s => s != ""

/-! ## PDF configuration and pagination (src/utils/pdfGenerator.ts) -/

structure PdfMargins where
  top : ℚ
  bottom : ℚ
  left : ℚ
  right : ℚ

structure PdfFontSize where
  h1 : ℚ
  h2 : ℚ
  h3 : ℚ
  h4 : ℚ
  p : ℚ
  small : ℚ

structure PdfSpacing where
  beforeH1 : ℚ
  afterH1 : ℚ
  beforeH2 : ℚ
  afterH2 : ℚ
  beforeH3 : ℚ
  afterH3 : ℚ
  beforeH4 : ℚ
  afterH4 : ℚ
  afterParagraph : ℚ
  betweenBuildings : ℚ
  betweenMaterials : ℚ
  tableRowHeight : ℚ
  sectionSeparator : ℚ

structure PdfConfig where
  orientation : String
  unit : String
  format : String
  margins : PdfMargins
  pageWidth : ℚ
  pageHeight : ℚ
  lineHeight : ℚ
  fontSize : PdfFontSize
  spacing : PdfSpacing

/-- The `PDF_CONFIG` constant of `src/utils/pdfGenerator.ts`. -/
def PDF_CONFIG : PdfConfig :=
  { orientation := "portrait"
    unit := "mm"
    format := "a4"
    margins := { top := 25, bottom := 25, left := 20, right := 20 }
    pageWidth := 210
    pageHeight := 297
    lineHeight := 6
    fontSize := { h1 := 20, h2 := 16, h3 := 14, h4 := 12, p := 10, small := 8 }
    spacing :=
      { beforeH1 := 0, afterH1 := 15, beforeH2 := 8, afterH2 := 10
        beforeH3 := 12, afterH3 := 8, beforeH4 := 8, afterH4 := 5
        afterParagraph := 4, betweenBuildings := 12, betweenMaterials := 8
        tableRowHeight := 7, sectionSeparator := 15 } }

/-- `checkPageBreak` of `src/utils/pdfGenerator.ts`.  The Boolean records
whether `pdf.addPage()` was called; the rational is the returned y
position. -/
def checkPageBreak (currentY requiredHeight : ℚ) : Bool × ℚ :=
  if currentY + requiredHeight > PDF_CONFIG.pageHeight - PDF_CONFIG.margins.bottom - 20 then
    (true, PDF_CONFIG.margins.top)
  else
    (false, currentY)

/-! ## Dashboard variation (src/services/dashboardService.ts,
`calculateVariation`) -/

/-- `calculateVariation` of the dashboard service. -/
def calculateVariation (current previous : ℕ) : ℤ :=
  if previous = 0 then (if 0 < current then 100 else 0)
  else jsRound (((current : ℚ) - (previous : ℚ)) / (previous : ℚ) * 100)

/-! ## ProgressBar component (src/components/ui/ProgressBar.tsx) -/

/-- What the ProgressBar component renders: the width (in percent) of the
inner bar, and the percentage text when `showPercentage` is set. -/
structure ProgressBarView where
  width : ℚ
  percentage : Option ℚ

/-- The rendering of `ProgressBar`: `normalizedProgress`
is `Math.min(Math.max(progress, 0), 100)`. -/
def renderProgressBar (progress : ℚ) (showPercentage : Bool) : ProgressBarView :=
  let normalizedProgress := min (max progress 0) 100
  { width := normalizedProgress
    percentage := if showPercentage then some normalizedProgress else none }

/-! ## Buildings, materials and progress calculators
(src/types/auth.ts and src/utils/progressCalculations.ts) -/

/-- A value stored under a key of the `technical_elements` JSONB object:
the code handles array values and string values. -/
inductive TEValue where
  | arr (items : List String)
  | str (s : String)
deriving DecidableEq

/-- The `Building` interface of `src/types/auth.ts` (fields the progress
calculator and the policies read; `technical_elements` is the JSONB
object, embedded as an association list). -/
structure Building where
  id : String := ""
  designation : String
  basement_area_sqm : Option ℚ := none
  ground_floor_area_sqm : Option ℚ := none
  first_floor_area_sqm : Option ℚ := none
  total_area : Option ℚ := none
  technical_elements : Option (List (String × TEValue)) := none
  miscellaneous_elements : Option (List String) := none
  new_value_mad : Option ℚ := none
  obsolescence_percentage : Option ℚ := none
  depreciated_value_mad : Option ℚ := none
  contiguity : Option String := none
  communication : Option String := none
  is_active : Bool := true
  created_by : Option String := none
deriving DecidableEq

/-- The `Material` interface of `src/types/auth.ts`. -/
structure Material where
  id : String := ""
  building_id : String
  name : String
  brand : Option String := none
  model : Option String := none
  serial_number : Option String := none
  installation_date : Option String := none
  warranty_end_date : Option String := none
  location_details : Option String := none
  maintenance_notes : Option String := none
  status : String := "operational"
  quantity : Option ℚ := none
  manufacturing_year : Option ℚ := none
  condition : Option String := none
  new_value_mad : Option ℚ := none
  obsolescence_percentage : Option ℚ := none
  depreciated_value_mad : Option ℚ := none
  is_active : Bool := true
  created_by : Option String := none
deriving DecidableEq

/-- The 13 `technicalElementKeys` of `calculateBuildingProgress`. -/
def technicalElementKeys : List String :=
  ["semelles", "elevations", "ossature", "portes", "fenetres", "grillage",
   "chassis", "facade", "toiture", "sol", "plafond", "escalier", "cloisonnement"]

/-- Whether an optional number is present and positive
(`v !== undefined && v !== null && v > 0`). -/
def posFilled : Option ℚ → Bool
  | none => false
  | some v => decide (0 < v)

/-- Whether the technical element under `key` is filled:
`building.technical_elements[key]` must be truthy, then a non-empty
array or a string with non-blank trim. -/
def teFilled (te : Option (List (String × TEValue))) (key : String) : Bool :=
  match te with
  | none => false
  | some kvs =>
    match (kvs.find? (fun kv => kv.1 == key)).map Prod.snd with
    | none => false
    | some (.arr items) => decide (0 < items.length)
    | some (.str s) => (s != "") && decide (0 < s.trim.length)

/-- The per-field tests of `calculateBuildingProgress`, in source order:
designation; 3 surfaces; contiguity and communication; 2 financial
values; the 13 technical-element keys; one flag per miscellaneous
element (always filled). -/
def buildingFieldFlags (b : Building) : List Bool :=
  [b.designation != ""]
  ++ [b.basement_area_sqm.isSome, b.ground_floor_area_sqm.isSome,
      b.first_floor_area_sqm.isSome]
  ++ [strTruthy b.contiguity, strTruthy b.communication]
  ++ [posFilled b.new_value_mad, b.obsolescence_percentage.isSome]
  ++ technicalElementKeys.map (teFilled b.technical_elements)
  ++ (b.miscellaneous_elements.getD []).map (fun _ => true)

/-- `calculateBuildingProgress` of `src/utils/progressCalculations.ts`:
`Math.round((progress / totalFields) * 100)` with the counters above. -/
def calculateBuildingProgress (b : Building) : ℤ :=
  let totalFields : ℕ := (buildingFieldFlags b).length
  let progress : ℕ := (buildingFieldFlags b).count true
  if 0 < totalFields then jsRound ((progress : ℚ) / (totalFields : ℚ) * 100) else 0

/-- The per-field tests of `calculateMaterialProgress`, in source order. -/
def materialFieldFlags (m : Material) : List Bool :=
  [m.name != "", m.building_id != "",
   strTruthy m.brand, strTruthy m.model, posFilled m.quantity,
   strTruthy m.serial_number, m.manufacturing_year.isSome,
   strTruthy m.condition,
   posFilled m.new_value_mad, m.obsolescence_percentage.isSome]

/-- `calculateMaterialProgress` of `src/utils/progressCalculations.ts`. -/
def calculateMaterialProgress (m : Material) : ℤ :=
  let totalFields : ℕ := (materialFieldFlags m).length
  let progress : ℕ := (materialFieldFlags m).count true
  if 0 < totalFields then jsRound ((progress : ℚ) / (totalFields : ℚ) * 100) else 0

/-- Mean building progress of a list, as computed by
`calculateOverallMissionProgress` (sum of per-building progress divided
by the number of buildings). -/
def buildingsMeanProgress (buildings : List Building) : ℚ :=
  ((buildings.map (fun b => ((calculateBuildingProgress b : ℚ)))).sum) / (buildings.length : ℚ)

/-- Mean material progress of a list. -/
def materialsMeanProgress (materials : List Material) : ℚ :=
  ((materials.map (fun m => ((calculateMaterialProgress m : ℚ)))).sum) / (materials.length : ℚ)

/-- `calculateOverallMissionProgress` of
`src/utils/progressCalculations.ts`; the mission status is the status
string of the mission. -/
def calculateOverallMissionProgress
    (buildings : List Building) (materials : List Material)
    (missionStatus : String) : ℤ :=
  if missionStatus = "completed" then 100
  else if missionStatus = "cancelled" then 0
  else if buildings.length = 0 ∧ materials.length = 0 then
    (if missionStatus = "draft" then 0
     else if missionStatus = "assigned" then 15
     else if missionStatus = "in_progress" then 50
     else 0)
  else
    let totalProgress : ℚ :=
      (if 0 < buildings.length then buildingsMeanProgress buildings * (0.6 : ℚ) else 0)
      + (if 0 < materials.length then materialsMeanProgress materials * (0.4 : ℚ) else 0)
    let totalWeight : ℚ :=
      (if 0 < buildings.length then (0.6 : ℚ) else 0)
      + (if 0 < materials.length then (0.4 : ℚ) else 0)
    if 0 < totalWeight then jsRound (totalProgress / totalWeight) else 0

/-- The record returned by the two validation-status helpers. -/
structure ValidationStatus where
  completed : ℕ
  total : ℕ
  status : String
  color : String
deriving DecidableEq

/-- `getBuildingsValidationStatus` of `src/utils/progressCalculations.ts`. -/
def getBuildingsValidationStatus (buildings : List Building) : ValidationStatus :=
  if buildings.length = 0 then
    { completed := 0, total := 0, status := "Aucun bâtiment", color := "text-gray-600" }
  else
    let completed := (buildings.filter (fun b => 80 ≤ calculateBuildingProgress b)).length
    let total := buildings.length
    if completed = total then
      { completed, total, status := "Validé", color := "text-green-600" }
    else if 0 < completed then
      { completed, total, status := "Validation partielle", color := "text-amber-600" }
    else
      { completed, total, status := "En attente", color := "text-gray-600" }

/-- `getMaterialsValidationStatus` of `src/utils/progressCalculations.ts`. -/
def getMaterialsValidationStatus (materials : List Material) : ValidationStatus :=
  if materials.length = 0 then
    { completed := 0, total := 0, status := "Aucun matériel", color := "text-gray-600" }
  else
    let completed := (materials.filter (fun m => 80 ≤ calculateMaterialProgress m)).length
    let total := materials.length
    if completed = total then
      { completed, total, status := "Validé", color := "text-green-600" }
    else if 0 < completed then
      { completed, total, status := "Validation partielle", color := "text-amber-600" }
    else
      { completed, total, status := "En attente", color := "text-gray-600" }

/-- A concrete building used to instantiate theorems. -/
def exampleBuilding : Building :=
  { designation := "Hangar A"
    basement_area_sqm := some 120
    contiguity := some "neant"
    new_value_mad := some 500000
    miscellaneous_elements := some ["cloture", "portail"] }

/-- A concrete material used to instantiate theorems. -/
def exampleMaterial : Material :=
  { building_id := "b1"
    name := "Compresseur"
    brand := some "Atlas"
    quantity := some 2 }

/-! ## Roles, capabilities and row-level-security policies
(src/hooks/useRolePermissions.ts and
supabase/migrations/20250709133918_falling_valley.sql) -/

/-- The four application roles of the `role` union type / column. -/
inductive Role where
  | super_admin
  | admin
  | expert
  | constateur
deriving DecidableEq, Repr, Fintype

/-- Position of a role in the hierarchy
`super_admin > admin > expert > constateur` of the specification. -/
def roleRank : Role → ℕ
  | .super_admin => 3
  | .admin => 2
  | .expert => 1
  | .constateur => 0

/-- The authenticated user as read by `useRolePermissions` (from
`AuthContext`); only the `role` field is consulted by the capabilities. -/
structure AppUser where
  id : String
  email : String
  role : Role
  full_name : Option String := none
  is_active : Bool := true
deriving DecidableEq

/-- `hasRole` of `useRolePermissions`: false without a user, otherwise
membership of the user's role in the required list. -/
def hasRole (user : Option AppUser) (requiredRoles : List Role) : Bool :=
  match user with
  | none => false
  | some u => requiredRoles.contains u.role

/-- `canAccessAdmin` of `useRolePermissions`. -/
def canAccessAdmin (user : Option AppUser) : Bool :=
  hasRole user [.super_admin, .admin]

/-- `canAccessExpert` of `useRolePermissions`. -/
def canAccessExpert (user : Option AppUser) : Bool :=
  hasRole user [.super_admin, .admin, .expert]

/-- `canManageUsers` of `useRolePermissions`. -/
def canManageUsers (user : Option AppUser) : Bool :=
  hasRole user [.super_admin, .admin]

/-- `canManageBuildings` of `useRolePermissions`. -/
def canManageBuildings (user : Option AppUser) : Bool :=
  hasRole user [.super_admin, .admin, .expert]

/-- `canManageMissions` of `useRolePermissions`. -/
def canManageMissions (user : Option AppUser) : Bool :=
  hasRole user [.super_admin, .admin, .expert]

/-- `canViewAllMissions` of `useRolePermissions`. -/
def canViewAllMissions (user : Option AppUser) : Bool :=
  hasRole user [.super_admin, .admin, .expert]

/-- `canAssignMissions` of `useRolePermissions`. -/
def canAssignMissions (user : Option AppUser) : Bool :=
  hasRole user [.super_admin, .admin, .expert]

/-- A row of `public.profiles` (the fields the policies read). -/
structure ProfileRow where
  id : ℕ
  role : Role
  is_active : Bool
deriving DecidableEq

/-- The mission status column (union type of `src/types/auth.ts` and the
values compared by the policies). -/
inductive MStatus where
  | draft
  | assigned
  | in_progress
  | completed
  | cancelled
deriving DecidableEq, Repr

/-- A row of `public.missions` (the fields the policies read). -/
structure MissionRow where
  id : ℕ
  assigned_to : Option ℕ
  status : MStatus
deriving DecidableEq

/-- A row of `public.mission_buildings`. -/
structure MissionBuildingRow where
  mission_id : ℕ
  building_id : ℕ
deriving DecidableEq

/-- A row of `public.buildings` (the fields the policies read). -/
structure BuildingRow where
  id : ℕ
  created_by : Option ℕ
deriving DecidableEq

/-- The database state consulted by the buildings policies. -/
structure Db where
  profiles : List ProfileRow
  missions : List MissionRow
  mission_buildings : List MissionBuildingRow
deriving DecidableEq

/-- `EXISTS (SELECT 1 FROM public.profiles WHERE profiles.id = auth.uid()
AND profiles.role IN roles AND profiles.is_active = true)`. -/
def profileActiveIn (db : Db) (uid : ℕ) (roles : List Role) : Bool :=
  db.profiles.any (fun p => p.id == uid && roles.contains p.role && p.is_active)

/-- `EXISTS (SELECT 1 FROM public.mission_buildings mb JOIN
public.missions m ON m.id = mb.mission_id WHERE mb.building_id =
buildings.id AND m.assigned_to = auth.uid())`. -/
def assignedMissionContains (db : Db) (uid : ℕ) (buildingId : ℕ) : Bool :=
  db.mission_buildings.any (fun mb =>
    mb.building_id == buildingId
    && db.missions.any (fun m => m.id == mb.mission_id && m.assigned_to == some uid))

/-- As `assignedMissionContains`, but additionally
`m.status IN ('draft', 'assigned', 'in_progress')`. -/
def assignedActiveMissionContains (db : Db) (uid : ℕ) (buildingId : ℕ) : Bool :=
  db.mission_buildings.any (fun mb =>
    mb.building_id == buildingId
    && db.missions.any (fun m =>
        m.id == mb.mission_id && m.assigned_to == some uid
        && [MStatus.draft, MStatus.assigned, MStatus.in_progress].contains m.status))

/-- The `USING` condition of the policy `"Users can read buildings based
on role and ownership"` (SELECT on `public.buildings`). -/
def buildingsSelectPolicy (db : Db) (uid : ℕ) (b : BuildingRow) : Bool :=
  profileActiveIn db uid [.super_admin, .admin]
  || (profileActiveIn db uid [.expert] && b.created_by == some uid)
  || (profileActiveIn db uid [.constateur] && assignedMissionContains db uid b.id)

/-- The `WITH CHECK` condition of the policy `"Allow creating buildings
based on role with proper ownership"` (INSERT on `public.buildings`). -/
def buildingsInsertPolicy (db : Db) (uid : ℕ) (b : BuildingRow) : Bool :=
  profileActiveIn db uid [.super_admin, .admin, .expert, .constateur]
  && b.created_by == some uid

/-- The `USING` condition of the policy `"Allow updating buildings based
on role and ownership"` (UPDATE on `public.buildings`; its `WITH CHECK`
condition is textually identical, applied to the updated row). -/
def buildingsUpdatePolicy (db : Db) (uid : ℕ) (b : BuildingRow) : Bool :=
  profileActiveIn db uid [.super_admin, .admin]
  || (profileActiveIn db uid [.expert] && b.created_by == some uid)
  || (b.created_by == some uid
      && profileActiveIn db uid [.constateur]
      && assignedActiveMissionContains db uid b.id)

/-- The `USING` condition of the policy `"Allow deleting buildings based
on role and ownership"` (DELETE on `public.buildings`). -/
def buildingsDeletePolicy (db : Db) (uid : ℕ) (b : BuildingRow) : Bool :=
  profileActiveIn db uid [.super_admin, .admin]
  || (profileActiveIn db uid [.expert] && b.created_by == some uid)
  || (b.created_by == some uid
      && profileActiveIn db uid [.constateur]
      && assignedActiveMissionContains db uid b.id)

/-- Replace the role of every profile of user `uid` by `r`, leaving all
other data unchanged: the database seen by an otherwise-identical user
holding role `r`. -/
def setRole (db : Db) (uid : ℕ) (r : Role) : Db :=
  { db with profiles := db.profiles.map (fun p =>
      if p.id = uid then { p with role := r } else p) }

/-- Database of the monotonicity counterexample: user 1 is active and
assigned mission 1, which contains building 1; building 1 was created
by user 2. -/
def hierarchyDb (r : Role) : Db :=
  { profiles := [{ id := 1, role := r, is_active := true }]
    missions := [{ id := 1, assigned_to := some 1, status := .in_progress }]
    mission_buildings := [{ mission_id := 1, building_id := 1 }] }

/-- The building of the monotonicity counterexample. -/
def hierarchyBuilding : BuildingRow := { id := 1, created_by := some 2 }

/-- Database of the completed-mission counterexample: the constateur
user 1 created building 1, which belongs both to the completed mission 1
and to the in-progress mission 2, both assigned to user 1. -/
def twoMissionsDb : Db :=
  { profiles := [{ id := 1, role := .constateur, is_active := true }]
    missions := [{ id := 1, assigned_to := some 1, status := .completed },
                 { id := 2, assigned_to := some 1, status := .in_progress }]
    mission_buildings := [{ mission_id := 1, building_id := 1 },
                          { mission_id := 2, building_id := 1 }] }

/-- The building of the completed-mission counterexample. -/
def twoMissionsBuilding : BuildingRow := { id := 1, created_by := some 1 }

/-- A concrete user used to instantiate theorems. -/
def exampleUser : AppUser :=
  { id := "u1", email := "u1@example.com", role := Role.expert }

/-! ## ProtectedRoute (src/components/ProtectedRoute.tsx) -/

/-- The five possible renderings of `ProtectedRoute`. -/
inductive RouteView where
  | loadingScreen
  | redirectToLogin
  | errorScreen
  | accessRefusedScreen
  | childrenContent
deriving DecidableEq, Repr

/-- `shouldRedirectToLogin` of `ProtectedRoute`:
`!!(errorMessage && !currentUser)` (an empty error string is falsy). -/
def shouldRedirectToLogin (errorMessage : Option String) (currentUser : Option AppUser) : Bool :=
  strTruthy errorMessage && currentUser.isNone

/-- The rendering decision of `ProtectedRoute`, in source order: loading
screen while loading; on a (truthy) error either an automatic redirect
to /login (no user) or the error screen; redirect to /login without a
user; the access-refused screen when an `allowedRoles` list is given
that does not contain the user's role; otherwise the children. -/
def protectedRoute (user : Option AppUser) (loading : Bool) (error : Option String)
    (allowedRoles : Option (List Role)) : RouteView :=
  if loading then .loadingScreen
  else if strTruthy error then
    (if shouldRedirectToLogin error user then .redirectToLogin else .errorScreen)
  else
    match user with
    | none => .redirectToLogin
    | some u =>
      match allowedRoles with
      | some roles => if roles.contains u.role = false then .accessRefusedScreen
                      else .childrenContent
      | none => .childrenContent

/-! ## Mission report slug (src/utils/pdfGenerator.ts, `createSlug` and
`generateMissionReportPdf`) -/

/-- Whether a character matches `[a-z0-9]` (codes 97–122 and 48–57). -/
def isSlugChar (c : Char) : Bool :=
  (97 ≤ c.toNat && c.toNat ≤ 122) || (48 ≤ c.toNat && c.toNat ≤ 57)

/-- Per-character lower-casing, as `String.prototype.toLowerCase`
acts on ASCII (uppercase letters 65–90 are shifted to 97–122; other
characters are returned unchanged). -/
def jsToLower (c : Char) : Char :=
  if 65 ≤ c.toNat ∧ c.toNat ≤ 90 then Char.ofNat (c.toNat + 32) else c

/-- The global replacement `.replace(/[^a-z0-9]+/g, '-')`: every maximal
run of characters outside `[a-z0-9]` becomes a single `'-'`. -/
def collapseRuns : List Char → List Char
  | [] => []
  | c :: rest =>
    if isSlugChar c then c :: collapseRuns rest
    else '-' :: collapseRuns (rest.dropWhile (fun d => !isSlugChar d))
termination_by l => l.length
decreasing_by
  · simp only [List.length_cons]
    omega
  · simp only [List.length_cons]
    have h2 : (rest.dropWhile (fun d => !isSlugChar d)).length ≤ rest.length :=
      (List.dropWhile_sublist _).length_le
    omega

/-- `createSlug` of `src/utils/pdfGenerator.ts`: lower-case the title,
collapse every run of characters outside `[a-z0-9]` to `'-'`, then strip
leading and trailing dashes (`.replace(/^-+|-+$/g, '')`). -/
def createSlug (title : List Char) : List Char :=
  List.rdropWhile (fun c => c == '-')
    ((collapseRuns (title.map jsToLower)).dropWhile (fun c => c == '-'))

/-- The file name built by `generateMissionReportPdf`:
`` `rapport_${slug}.pdf` ``. -/
def reportFileName (title : List Char) : List Char :=
  "rapport_".toList ++ createSlug title ++ ".pdf".toList

/-- A character allowed in a slug: `[a-z0-9]` or `'-'`. -/
def slugOrDash (c : Char) : Bool :=
  isSlugChar c || c == '-'

/-- No two adjacent dashes. -/
def noDoubleDash : List Char → Bool
  | [] => true
  | [_] => true
  | a :: b :: rest => !(a == '-' && b == '-') && noDoubleDash (b :: rest)

/-! ## Rounding facts -/

theorem jsRound_nonneg {x : ℚ} (hx : 0 ≤ x) : 0 ≤ jsRound x := by
  have h : ((0 : ℤ) : ℚ) ≤ x + 1/2 := by push_cast; linarith
  simpa [jsRound] using Int.le_floor.mpr h

theorem jsRound_le_hundred {x : ℚ} (hx : x ≤ 100) : jsRound x ≤ 100 := by
  have h : x + 1/2 < ((100 : ℤ) : ℚ) + 1 := by push_cast; linarith
  simpa [jsRound] using (Int.floor_le_iff).mpr h

/-- Bounds for `Math.round((p / t) * 100)` when `p ≤ t` and `0 < t`. -/
theorem jsRound_ratio_bounds (p t : ℕ) (hpt : p ≤ t) (ht : 0 < t) :
    0 ≤ jsRound ((p : ℚ) / (t : ℚ) * 100) ∧ jsRound ((p : ℚ) / (t : ℚ) * 100) ≤ 100 := by
  have htq : (0 : ℚ) < (t : ℚ) := by exact_mod_cast ht
  have hdiv0 : (0 : ℚ) ≤ (p : ℚ) / (t : ℚ) := by positivity
  have hdiv1 : (p : ℚ) / (t : ℚ) ≤ 1 := by
    rw [div_le_one htq]
    exact_mod_cast hpt
  exact ⟨jsRound_nonneg (by linarith), jsRound_le_hundred (by linarith)⟩

/-- C3: `calculateBuildingProgress` is an equal-weight field counter:
the total is `21 + #miscellaneous_elements` (1 designation + 3 surfaces
+ 2 contiguity/communication + 2 financial + 13 technical keys + one per
miscellaneous element), the result is `round(100 · filled / total)` with
`filled` the number of per-field tests that pass, and it lies in
`[0, 100]`. -/
theorem c3_building_progress_formula (b : Building) :
    (buildingFieldFlags b).length = 21 + (b.miscellaneous_elements.getD []).length
    ∧ calculateBuildingProgress b
        = jsRound (100 * ((buildingFieldFlags b).count true : ℚ)
            / ((21 + (b.miscellaneous_elements.getD []).length : ℕ) : ℚ))
    ∧ 0 ≤ calculateBuildingProgress b
    ∧ calculateBuildingProgress b ≤ 100 := by
  have hlen : (buildingFieldFlags b).length
      = 21 + (b.miscellaneous_elements.getD []).length := by
    simp [buildingFieldFlags, technicalElementKeys]
    omega
  have hcount : (buildingFieldFlags b).count true ≤ (buildingFieldFlags b).length :=
    List.count_le_length _ _
  have hpos : 0 < (buildingFieldFlags b).length := by omega
  have hbounds := jsRound_ratio_bounds ((buildingFieldFlags b).count true)
    ((buildingFieldFlags b).length) hcount hpos
  refine ⟨hlen, ?_, ?_, ?_⟩
  · simp only [calculateBuildingProgress, if_pos hpos]
    rw [← hlen]
    congr 1
    ring
  · simpa only [calculateBuildingProgress, if_pos hpos] using hbounds.1
  · simpa only [calculateBuildingProgress, if_pos hpos] using hbounds.2

/-- C4: overall mission progress is 100 for a completed mission and 0
for a cancelled one regardless of the data; otherwise, with both lists
non-empty it is `round(0.6·mean(building progress) + 0.4·mean(material
progress))` (total weight 1), and with exactly one list non-empty it is
the rounded mean of that list alone. -/
theorem c4_overall_progress_cases
    (bs : List Building) (ms : List Material) (st : String) :
    (st = "completed" → calculateOverallMissionProgress bs ms st = 100)
    ∧ (st = "cancelled" → calculateOverallMissionProgress bs ms st = 0)
    ∧ (st ≠ "completed" → st ≠ "cancelled" → bs ≠ [] → ms ≠ [] →
        calculateOverallMissionProgress bs ms st
          = jsRound ((0.6 : ℚ) * buildingsMeanProgress bs
              + (0.4 : ℚ) * materialsMeanProgress ms))
    ∧ (st ≠ "completed" → st ≠ "cancelled" → bs ≠ [] → ms = [] →
        calculateOverallMissionProgress bs ms st = jsRound (buildingsMeanProgress bs))
    ∧ (st ≠ "completed" → st ≠ "cancelled" → bs = [] → ms ≠ [] →
        calculateOverallMissionProgress bs ms st = jsRound (materialsMeanProgress ms)) := by
  refine ⟨fun h => by simp [calculateOverallMissionProgress, h],
          fun h => by simp [calculateOverallMissionProgress, h], ?_, ?_, ?_⟩
  · intro h1 h2 hb hm
    have hbl : 0 < bs.length := List.length_pos.mpr hb
    have hml : 0 < ms.length := List.length_pos.mpr hm
    have hpair : ¬ (bs.length = 0 ∧ ms.length = 0) := by omega
    simp only [calculateOverallMissionProgress, if_neg h1, if_neg h2, if_neg hpair,
      if_pos hbl, if_pos hml]
    rw [if_pos (by norm_num)]
    congr 1
    norm_num
    ring
  · intro h1 h2 hb hm
    have hbl : 0 < bs.length := List.length_pos.mpr hb
    have hml : ¬ (0 < ms.length) := by simp [hm]
    have hpair : ¬ (bs.length = 0 ∧ ms.length = 0) := by omega
    simp only [calculateOverallMissionProgress, if_neg h1, if_neg h2, if_neg hpair,
      if_pos hbl, if_neg hml]
    rw [if_pos (by norm_num)]
    congr 1
    norm_num
  · intro h1 h2 hb hm
    have hbl : ¬ (0 < bs.length) := by simp [hb]
    have hml : 0 < ms.length := List.length_pos.mpr hm
    have hpair : ¬ (bs.length = 0 ∧ ms.length = 0) := by omega
    simp only [calculateOverallMissionProgress, if_neg h1, if_neg h2, if_neg hpair,
      if_neg hbl, if_pos hml]
    rw [if_pos (by norm_num)]
    congr 1
    norm_num

theorem c4_overall_progress_cases_witness :
    calculateOverallMissionProgress [exampleBuilding] [] "draft"
      = jsRound (buildingsMeanProgress [exampleBuilding])
    ∧ calculateOverallMissionProgress [] [exampleMaterial] "in_progress"
      = jsRound (materialsMeanProgress [exampleMaterial]) := by
  refine ⟨(c4_overall_progress_cases [exampleBuilding] [] "draft").2.2.2.1
            (by decide) (by decide) (by simp) rfl,
          (c4_overall_progress_cases [] [exampleMaterial] "in_progress").2.2.2.2
            (by decide) (by decide) rfl (by simp)⟩

/-- C5: `checkPageBreak` is sequential pagination with a safety margin:
the cut-off is `pageHeight − bottom margin − 20 = 252` mm; below it the
y position is returned unchanged, above it exactly one page is added and
the top margin (25 mm) is returned; hence content of height at most
227 mm placed through this check ends no lower than 252 mm. -/
theorem c5_checkPageBreak_spec (y h : ℚ) :
    PDF_CONFIG.pageHeight - PDF_CONFIG.margins.bottom - 20 = 252
    ∧ PDF_CONFIG.margins.top = 25
    ∧ (y + h ≤ 252 → checkPageBreak y h = (false, y))
    ∧ (252 < y + h → checkPageBreak y h = (true, 25))
    ∧ (h ≤ 227 → (checkPageBreak y h).2 + h ≤ 252) := by
  have hmax : PDF_CONFIG.pageHeight - PDF_CONFIG.margins.bottom - 20 = (252 : ℚ) := by
    norm_num [PDF_CONFIG]
  have htop : PDF_CONFIG.margins.top = (25 : ℚ) := by
    norm_num [PDF_CONFIG]
  refine ⟨hmax, htop, ?_, ?_, ?_⟩
  · intro hle
    have hc : ¬ (y + h > PDF_CONFIG.pageHeight - PDF_CONFIG.margins.bottom - 20) := by
      rw [hmax]; linarith
    simp [checkPageBreak, hc]
  · intro hgt
    have hc : y + h > PDF_CONFIG.pageHeight - PDF_CONFIG.margins.bottom - 20 := by
      rw [hmax]; linarith
    simp [checkPageBreak, hc, htop]
  · intro hh
    by_cases hc : y + h > PDF_CONFIG.pageHeight - PDF_CONFIG.margins.bottom - 20
    · simp only [checkPageBreak, if_pos hc]
      rw [htop]; linarith
    · simp only [checkPageBreak, if_neg hc]
      rw [hmax] at hc; push_neg at hc
      simpa using hc

theorem c5_checkPageBreak_spec_witness :
    checkPageBreak 200 30 = (false, 200)
    ∧ checkPageBreak 240 30 = (true, 25)
    ∧ (checkPageBreak 240 30).2 + 30 ≤ 252 := by
  refine ⟨(c5_checkPageBreak_spec 200 30).2.2.1 (by norm_num),
          (c5_checkPageBreak_spec 240 30).2.2.2.1 (by norm_num),
          (c5_checkPageBreak_spec 240 30).2.2.2.2 (by norm_num)⟩

/-- C7: `calculateVariation` is total and never divides by zero: it is
`round(((current − previous) / previous) * 100)` when `previous ≠ 0`,
`100` when `previous = 0 < current`, and `0` when both counts are 0. -/
theorem c7_calculateVariation_spec (current previous : ℕ) :
    (previous ≠ 0 →
      calculateVariation current previous
        = jsRound (((current : ℚ) - (previous : ℚ)) / (previous : ℚ) * 100))
    ∧ (previous = 0 → 0 < current → calculateVariation current previous = 100)
    ∧ (previous = 0 → current = 0 → calculateVariation current previous = 0) := by
  refine ⟨fun hp => ?_, fun hp hc => ?_, fun hp hc => ?_⟩
  · simp [calculateVariation, hp]
  · simp [calculateVariation, hp, hc]
  · simp [calculateVariation, hp, hc]

theorem c7_calculateVariation_spec_witness :
    calculateVariation 6 4 = jsRound (((6 : ℚ) - (4 : ℚ)) / (4 : ℚ) * 100)
    ∧ calculateVariation 3 0 = 100
    ∧ calculateVariation 0 0 = 0 := by
  refine ⟨(c7_calculateVariation_spec 6 4).1 (by decide),
          (c7_calculateVariation_spec 3 0).2.1 rfl (by decide),
          (c7_calculateVariation_spec 0 0).2.2 rfl rfl⟩

/-- Case analysis shared by the two validation-status helpers: for
`k` completed among `n` items (with `k = 0` when `n = 0`), the decision
tree of the source yields the stated counters and the stated status
string exactly under the stated conditions. -/
theorem validationProps (k n : ℕ) (eLabel : String) (v : ValidationStatus)
    (hk : k ≤ n) (hk0 : n = 0 → k = 0)
    (he1 : eLabel ≠ "Validé") (he2 : eLabel ≠ "Validation partielle")
    (he3 : eLabel ≠ "En attente")
    (hv : v = if n = 0 then ⟨0, 0, eLabel, "text-gray-600"⟩
          else if k = n then ⟨k, n, "Validé", "text-green-600"⟩
          else if 0 < k then ⟨k, n, "Validation partielle", "text-amber-600"⟩
          else ⟨k, n, "En attente", "text-gray-600"⟩) :
    v.completed = k ∧ v.total = n ∧ v.completed ≤ v.total
    ∧ (v.status = "Validé" ↔ 0 < n ∧ k = n)
    ∧ (v.status = "Validation partielle" ↔ 0 < k ∧ k < n)
    ∧ (v.status = "En attente" ↔ k = 0 ∧ 0 < n)
    ∧ (v.status = eLabel ↔ n = 0) := by
  have s12 : ("Validé" : String) ≠ "Validation partielle" := by decide
  have s13 : ("Validé" : String) ≠ "En attente" := by decide
  have s23 : ("Validation partielle" : String) ≠ "En attente" := by decide
  subst hv
  by_cases h0 : n = 0
  · have hk' := hk0 h0
    subst h0; subst hk'
    rw [if_pos rfl]
    refine ⟨rfl, rfl, le_refl _, ?_, ?_, ?_, ⟨fun _ => rfl, fun _ => rfl⟩⟩
    · exact ⟨fun h => absurd h he1, fun h => absurd h.1 (lt_irrefl 0)⟩
    · exact ⟨fun h => absurd h he2, fun h => absurd h.1 (lt_irrefl 0)⟩
    · exact ⟨fun h => absurd h he3, fun h => absurd h.2 (lt_irrefl 0)⟩
  · by_cases h1 : k = n
    · rw [if_neg h0, if_pos h1]
      refine ⟨rfl, rfl, hk, ?_, ?_, ?_, ?_⟩
      · exact ⟨fun _ => ⟨Nat.pos_of_ne_zero h0, h1⟩, fun _ => rfl⟩
      · exact ⟨fun h => absurd h s12, fun h => by omega⟩
      · exact ⟨fun h => absurd h s13, fun h => by omega⟩
      · exact ⟨fun h => absurd h.symm he1, fun h => absurd h h0⟩
    · by_cases h2 : 0 < k
      · rw [if_neg h0, if_neg h1, if_pos h2]
        refine ⟨rfl, rfl, hk, ?_, ?_, ?_, ?_⟩
        · exact ⟨fun h => absurd h.symm s12, fun h => absurd h.2 h1⟩
        · exact ⟨fun _ => ⟨h2, by omega⟩, fun _ => rfl⟩
        · exact ⟨fun h => absurd h s23, fun h => by omega⟩
        · exact ⟨fun h => absurd h.symm he2, fun h => absurd h h0⟩
      · rw [if_neg h0, if_neg h1, if_neg h2]
        refine ⟨rfl, rfl, hk, ?_, ?_, ?_, ?_⟩
        · exact ⟨fun h => absurd h.symm s13, fun h => absurd h.2 h1⟩
        · exact ⟨fun h => absurd h.symm s23, fun h => absurd h.1 h2⟩
        · exact ⟨fun _ => ⟨by omega, by omega⟩, fun _ => rfl⟩
        · exact ⟨fun h => absurd h.symm he3, fun h => absurd h h0⟩

/-- C10: the validation status helpers are consistent summaries:
`completed` counts the items with progress ≥ 80, `total` is the list
length, `completed ≤ total` always, and each status string appears
exactly under the stated condition ('Validé' iff all of a non-empty
list, 'Validation partielle' iff strictly between, 'En attente' iff
none of a non-empty list, the 'Aucun …' label iff the list is empty). -/
theorem c10_validation_status_spec
    (buildings : List Building) (materials : List Material) :
    ((getBuildingsValidationStatus buildings).completed
        = (buildings.filter (fun b => 80 ≤ calculateBuildingProgress b)).length
      ∧ (getBuildingsValidationStatus buildings).total = buildings.length
      ∧ (getBuildingsValidationStatus buildings).completed
          ≤ (getBuildingsValidationStatus buildings).total
      ∧ ((getBuildingsValidationStatus buildings).status = "Validé"
          ↔ 0 < buildings.length
            ∧ (buildings.filter (fun b => 80 ≤ calculateBuildingProgress b)).length
                = buildings.length)
      ∧ ((getBuildingsValidationStatus buildings).status = "Validation partielle"
          ↔ 0 < (buildings.filter (fun b => 80 ≤ calculateBuildingProgress b)).length
            ∧ (buildings.filter (fun b => 80 ≤ calculateBuildingProgress b)).length
                < buildings.length)
      ∧ ((getBuildingsValidationStatus buildings).status = "En attente"
          ↔ (buildings.filter (fun b => 80 ≤ calculateBuildingProgress b)).length = 0
            ∧ 0 < buildings.length)
      ∧ ((getBuildingsValidationStatus buildings).status = "Aucun bâtiment"
          ↔ buildings = []))
    ∧ ((getMaterialsValidationStatus materials).completed
        = (materials.filter (fun m => 80 ≤ calculateMaterialProgress m)).length
      ∧ (getMaterialsValidationStatus materials).total = materials.length
      ∧ (getMaterialsValidationStatus materials).completed
          ≤ (getMaterialsValidationStatus materials).total
      ∧ ((getMaterialsValidationStatus materials).status = "Validé"
          ↔ 0 < materials.length
            ∧ (materials.filter (fun m => 80 ≤ calculateMaterialProgress m)).length
                = materials.length)
      ∧ ((getMaterialsValidationStatus materials).status = "Validation partielle"
          ↔ 0 < (materials.filter (fun m => 80 ≤ calculateMaterialProgress m)).length
            ∧ (materials.filter (fun m => 80 ≤ calculateMaterialProgress m)).length
                < materials.length)
      ∧ ((getMaterialsValidationStatus materials).status = "En attente"
          ↔ (materials.filter (fun m => 80 ≤ calculateMaterialProgress m)).length = 0
            ∧ 0 < materials.length)
      ∧ ((getMaterialsValidationStatus materials).status = "Aucun matériel"
          ↔ materials = [])) := by
  constructor
  · have hb := validationProps
      (buildings.filter (fun b => 80 ≤ calculateBuildingProgress b)).length
      buildings.length "Aucun bâtiment" (getBuildingsValidationStatus buildings)
      (List.length_filter_le _ _)
      (fun h0 => by rw [List.length_eq_zero.mp h0]; rfl)
      (by decide) (by decide) (by decide) rfl
    refine ⟨hb.1, hb.2.1, hb.2.2.1, hb.2.2.2.1, hb.2.2.2.2.1, hb.2.2.2.2.2.1, ?_⟩
    rw [hb.2.2.2.2.2.2]
    exact List.length_eq_zero
  · have hm := validationProps
      (materials.filter (fun m => 80 ≤ calculateMaterialProgress m)).length
      materials.length "Aucun matériel" (getMaterialsValidationStatus materials)
      (List.length_filter_le _ _)
      (fun h0 => by rw [List.length_eq_zero.mp h0]; rfl)
      (by decide) (by decide) (by decide) rfl
    refine ⟨hm.1, hm.2.1, hm.2.2.1, hm.2.2.2.1, hm.2.2.2.2.1, hm.2.2.2.2.2.1, ?_⟩
    rw [hm.2.2.2.2.2.2]
    exact List.length_eq_zero

theorem c10_validation_status_spec_witness :
    (getBuildingsValidationStatus []).status = "Aucun bâtiment"
    ∧ (getMaterialsValidationStatus [exampleMaterial]).total = 1 := by
  exact ⟨((c10_validation_status_spec [] []).1.2.2.2.2.2.2).mpr rfl,
         (c10_validation_status_spec [] [exampleMaterial]).2.2.1⟩

/-- C8: the ProgressBar clamps its input: bar width and the displayed
percentage both equal `min (max progress 0) 100`, which always lies
in `[0, 100]`, for every input including values below 0 or above 100. -/
theorem c8_progressBar_clamp (progress : ℚ) (showPercentage : Bool) :
    (renderProgressBar progress showPercentage).width = min (max progress 0) 100
    ∧ 0 ≤ (renderProgressBar progress showPercentage).width
    ∧ (renderProgressBar progress showPercentage).width ≤ 100
    ∧ (renderProgressBar progress true).percentage = some (min (max progress 0) 100)
    ∧ (renderProgressBar progress false).percentage = none := by
  refine ⟨rfl, ?_, ?_, rfl, rfl⟩
  · simp only [renderProgressBar]
    positivity
  · simp only [renderProgressBar]
    exact min_le_right _ _

/-- C1 fails as stated: the buildings SELECT policy is not monotone in
the role hierarchy.  With expert above constateur, the row of
`hierarchyBuilding` (created by someone else, in a mission assigned to
user 1) is granted to user 1 as an active constateur and denied to the
otherwise-identical active expert. -/
theorem c1_monotonicity_counterexample :
    roleRank Role.constateur < roleRank Role.expert
    ∧ buildingsSelectPolicy (hierarchyDb Role.constateur) 1 hierarchyBuilding = true
    ∧ buildingsSelectPolicy (hierarchyDb Role.expert) 1 hierarchyBuilding = false := by
  decide

/-- C1 (amended): monotonicity holds for the `can…` capabilities of
`useRolePermissions` (each is granted to an upward-closed set of roles),
and for the admin side of the buildings policies: whatever row any user
is granted by the SELECT / INSERT / UPDATE / DELETE policy, the
otherwise-identical user whose role is replaced by `admin` or
`super_admin` is also granted.  (Between `expert` and `constateur` the
row-level policies are not comparable.) -/
theorem c1_amended_monotonicity (u : AppUser) (r1 r2 : Role)
    (hr : roleRank r1 ≤ roleRank r2)
    (db : Db) (uid : ℕ) (b : BuildingRow) (radm : Role)
    (hadm : radm ∈ [Role.super_admin, Role.admin]) :
    (canAccessAdmin (some { u with role := r1 }) = true →
        canAccessAdmin (some { u with role := r2 }) = true)
    ∧ (canAccessExpert (some { u with role := r1 }) = true →
        canAccessExpert (some { u with role := r2 }) = true)
    ∧ (canManageUsers (some { u with role := r1 }) = true →
        canManageUsers (some { u with role := r2 }) = true)
    ∧ (canManageBuildings (some { u with role := r1 }) = true →
        canManageBuildings (some { u with role := r2 }) = true)
    ∧ (canManageMissions (some { u with role := r1 }) = true →
        canManageMissions (some { u with role := r2 }) = true)
    ∧ (canViewAllMissions (some { u with role := r1 }) = true →
        canViewAllMissions (some { u with role := r2 }) = true)
    ∧ (canAssignMissions (some { u with role := r1 }) = true →
        canAssignMissions (some { u with role := r2 }) = true)
    ∧ (buildingsSelectPolicy db uid b = true →
        buildingsSelectPolicy (setRole db uid radm) uid b = true)
    ∧ (buildingsInsertPolicy db uid b = true →
        buildingsInsertPolicy (setRole db uid radm) uid b = true)
    ∧ (buildingsUpdatePolicy db uid b = true →
        buildingsUpdatePolicy (setRole db uid radm) uid b = true)
    ∧ (buildingsDeletePolicy db uid b = true →
        buildingsDeletePolicy (setRole db uid radm) uid b = true) := by
  have hcap : ∀ L : List Role,
      (∀ a c : Role, roleRank a ≤ roleRank c → L.contains a = true → L.contains c = true) →
      hasRole (some { u with role := r1 }) L = true →
      hasRole (some { u with role := r2 }) L = true := by
    intro L hL h
    simp only [hasRole] at h ⊢
    exact hL r1 r2 hr h
  have hadm4 : radm ∈ [Role.super_admin, Role.admin, Role.expert, Role.constateur] := by
    rcases List.mem_cons.mp hadm with rfl | h
    · exact List.mem_cons_self _ _
    · rcases List.mem_cons.mp h with rfl | h
      · exact List.mem_cons_of_mem _ (List.mem_cons_self _ _)
      · exact absurd h (List.not_mem_nil _)
  have hprof : ∀ roles roles' : List Role, radm ∈ roles' →
      profileActiveIn db uid roles = true →
      profileActiveIn (setRole db uid radm) uid roles' = true := by
    intro roles roles' hmem h
    rw [profileActiveIn, List.any_eq_true] at h
    obtain ⟨p, hp, hcond⟩ := h
    simp only [Bool.and_eq_true, beq_iff_eq] at hcond
    rw [profileActiveIn, List.any_eq_true]
    refine ⟨{ p with role := radm }, ?_, ?_⟩
    · have : (fun q => if q.id = uid then { q with role := radm } else q) p
          = { p with role := radm } := by
        simp [hcond.1.1]
      rw [setRole, ← this]
      exact List.mem_map_of_mem _ hp
    · simp only [Bool.and_eq_true, beq_iff_eq]
      refine ⟨⟨hcond.1.1, ?_⟩, hcond.2⟩
      simpa using hmem
  refine ⟨hcap _ (by decide), hcap _ (by decide), hcap _ (by decide),
          hcap _ (by decide), hcap _ (by decide), hcap _ (by decide),
          hcap _ (by decide), ?_, ?_, ?_, ?_⟩
  · intro h
    rw [buildingsSelectPolicy] at h
    simp only [Bool.or_eq_true, Bool.and_eq_true] at h
    have hfst : profileActiveIn (setRole db uid radm) uid [.super_admin, .admin] = true := by
      rcases h with (h | h) | h
      · exact hprof _ _ hadm h
      · exact hprof _ _ hadm h.1
      · exact hprof _ _ hadm h.1
    rw [buildingsSelectPolicy]
    simp [hfst]
  · intro h
    rw [buildingsInsertPolicy] at h
    simp only [Bool.and_eq_true] at h
    rw [buildingsInsertPolicy]
    simp only [Bool.and_eq_true]
    exact ⟨hprof _ _ hadm4 h.1, h.2⟩
  · intro h
    rw [buildingsUpdatePolicy] at h
    simp only [Bool.or_eq_true, Bool.and_eq_true] at h
    have hfst : profileActiveIn (setRole db uid radm) uid [.super_admin, .admin] = true := by
      rcases h with (h | h) | h
      · exact hprof _ _ hadm h
      · exact hprof _ _ hadm h.1
      · exact hprof _ _ hadm h.1.2
    rw [buildingsUpdatePolicy]
    simp [hfst]
  · intro h
    rw [buildingsDeletePolicy] at h
    simp only [Bool.or_eq_true, Bool.and_eq_true] at h
    have hfst : profileActiveIn (setRole db uid radm) uid [.super_admin, .admin] = true := by
      rcases h with (h | h) | h
      · exact hprof _ _ hadm h
      · exact hprof _ _ hadm h.1
      · exact hprof _ _ hadm h.1.2
    rw [buildingsDeletePolicy]
    simp [hfst]

theorem c1_amended_monotonicity_witness :
    canAccessExpert (some { exampleUser with role := Role.admin }) = true
    ∧ buildingsSelectPolicy (setRole (hierarchyDb Role.constateur) 1 Role.admin)
        1 hierarchyBuilding = true := by
  have h := c1_amended_monotonicity exampleUser Role.expert Role.admin (by decide)
    (hierarchyDb Role.constateur) 1 hierarchyBuilding Role.admin (by decide)
  exact ⟨h.2.1 (by decide), h.2.2.2.2.2.2.2.1 (by decide)⟩

/-- C2 fails as stated in its final consequence: building 1 of
`twoMissionsDb` belongs to the completed mission 1, yet its active
constateur creator (user 1) may update and delete it, because the
building also belongs to the in-progress mission 2 assigned to the same
user. -/
theorem c2_completed_mission_counterexample :
    buildingsUpdatePolicy twoMissionsDb 1 twoMissionsBuilding = true
    ∧ buildingsDeletePolicy twoMissionsDb 1 twoMissionsBuilding = true
    ∧ ({ mission_id := 1, building_id := 1 } : MissionBuildingRow)
        ∈ twoMissionsDb.mission_buildings
    ∧ ({ id := 1, assigned_to := some 1, status := .completed } : MissionRow)
        ∈ twoMissionsDb.missions
    ∧ twoMissionsBuilding.id = 1
    ∧ twoMissionsBuilding.created_by = some 1
    ∧ profileActiveIn twoMissionsDb 1 [Role.constateur] = true := by
  decide

/-- C2 (amended): for a user all of whose profiles carry role
`constateur`, the UPDATE and DELETE policies pass exactly when the user
has an active constateur profile, created the building, and the building
belongs to some mission assigned to the user with status `draft`,
`assigned` or `in_progress`; in particular a constateur can never modify
or delete a building that belongs to no such mission (all of its
assigned missions being completed or cancelled). -/
theorem c2_constateur_write_policy (db : Db) (uid : ℕ) (b : BuildingRow)
    (hrole : ∀ p ∈ db.profiles, p.id = uid → p.role = Role.constateur) :
    (buildingsUpdatePolicy db uid b = true ↔
      profileActiveIn db uid [Role.constateur] = true
      ∧ b.created_by = some uid
      ∧ assignedActiveMissionContains db uid b.id = true)
    ∧ (buildingsDeletePolicy db uid b = true ↔
      profileActiveIn db uid [Role.constateur] = true
      ∧ b.created_by = some uid
      ∧ assignedActiveMissionContains db uid b.id = true)
    ∧ (assignedActiveMissionContains db uid b.id = false →
        buildingsUpdatePolicy db uid b = false
        ∧ buildingsDeletePolicy db uid b = false) := by
  have hadmF : profileActiveIn db uid [Role.super_admin, Role.admin] = false := by
    rw [profileActiveIn, List.any_eq_false]
    intro p hp
    simp only [Bool.and_eq_true, beq_iff_eq, not_and]
    intro hpid _
    have := hrole p hp hpid.1
    rw [this] at hpid
    exact absurd hpid.2 (by decide)
  have hexpF : profileActiveIn db uid [Role.expert] = false := by
    rw [profileActiveIn, List.any_eq_false]
    intro p hp
    simp only [Bool.and_eq_true, beq_iff_eq, not_and]
    intro hpid _
    have := hrole p hp hpid.1
    rw [this] at hpid
    exact absurd hpid.2 (by decide)
  refine ⟨?_, ?_, ?_⟩
  · rw [buildingsUpdatePolicy, hadmF, hexpF]
    simp only [Bool.false_or, Bool.false_and, Bool.and_eq_true, beq_iff_eq]
    constructor
    · rintro ⟨⟨hcb, hpr⟩, has⟩
      exact ⟨hpr, hcb, has⟩
    · rintro ⟨hpr, hcb, has⟩
      exact ⟨⟨hcb, hpr⟩, has⟩
  · rw [buildingsDeletePolicy, hadmF, hexpF]
    simp only [Bool.false_or, Bool.false_and, Bool.and_eq_true, beq_iff_eq]
    constructor
    · rintro ⟨⟨hcb, hpr⟩, has⟩
      exact ⟨hpr, hcb, has⟩
    · rintro ⟨hpr, hcb, has⟩
      exact ⟨⟨hcb, hpr⟩, has⟩
  · intro hfa
    constructor
    · rw [buildingsUpdatePolicy, hadmF, hexpF, hfa]
      simp
    · rw [buildingsDeletePolicy, hadmF, hexpF, hfa]
      simp

theorem c2_constateur_write_policy_witness :
    buildingsUpdatePolicy twoMissionsDb 1 twoMissionsBuilding = true :=
  ((c2_constateur_write_policy twoMissionsDb 1 twoMissionsBuilding (by decide)).1).mpr
    ⟨by decide, by decide, by decide⟩

/-- C9 fails as stated: while `loading` is true the component renders
the loading screen, which is neither a redirect to /login nor an
error or access-refused screen (the children are still never
rendered). -/
theorem c9_loading_screen_counterexample :
    protectedRoute (some exampleUser) true none none = RouteView.loadingScreen
    ∧ RouteView.loadingScreen ≠ RouteView.redirectToLogin
    ∧ RouteView.loadingScreen ≠ RouteView.errorScreen
    ∧ RouteView.loadingScreen ≠ RouteView.accessRefusedScreen
    ∧ RouteView.loadingScreen ≠ RouteView.childrenContent := by
  decide

/-- C9 (amended): `ProtectedRoute` renders its children iff loading is
false, the error is absent (or empty, which the component treats as no
error), a user is present, and either no `allowedRoles` list is given or
it contains the user's role; in every other case it yields the loading
screen, a redirect to /login, or an error / access-refused screen, and
the children are never rendered. -/
theorem c9_protected_route_amended (user : Option AppUser) (loading : Bool)
    (error : Option String) (allowedRoles : Option (List Role)) :
    (protectedRoute user loading error allowedRoles = RouteView.childrenContent ↔
      loading = false ∧ strTruthy error = false
      ∧ ∃ u, user = some u
          ∧ (allowedRoles = none
             ∨ ∃ roles, allowedRoles = some roles ∧ roles.contains u.role = true))
    ∧ (loading = true →
        protectedRoute user loading error allowedRoles = RouteView.loadingScreen)
    ∧ (loading = false → strTruthy error = true → user = none →
        protectedRoute user loading error allowedRoles = RouteView.redirectToLogin)
    ∧ (∀ u, loading = false → strTruthy error = true → user = some u →
        protectedRoute user loading error allowedRoles = RouteView.errorScreen)
    ∧ (loading = false → strTruthy error = false → user = none →
        protectedRoute user loading error allowedRoles = RouteView.redirectToLogin)
    ∧ (∀ u roles, loading = false → strTruthy error = false → user = some u →
        allowedRoles = some roles → roles.contains u.role = false →
        protectedRoute user loading error allowedRoles = RouteView.accessRefusedScreen) := by
  rcases Bool.eq_false_or_eq_true loading with hl | hl
  · subst hl
    simp [protectedRoute]
  · subst hl
    rcases Bool.eq_false_or_eq_true (strTruthy error) with he | he
    · cases user with
      | none => simp [protectedRoute, shouldRedirectToLogin, he]
      | some u => simp [protectedRoute, shouldRedirectToLogin, he]
    · cases user with
      | none => simp [protectedRoute, shouldRedirectToLogin, he]
      | some u =>
        cases allowedRoles with
        | none => simp [protectedRoute, he]
        | some roles =>
          rcases Bool.eq_false_or_eq_true (roles.contains u.role) with hc | hc
          · simp [protectedRoute, he, hc]
          · simp [protectedRoute, he, hc]

theorem c9_protected_route_amended_witness :
    protectedRoute (some exampleUser) false none (some [Role.expert])
      = RouteView.childrenContent
    ∧ protectedRoute none false (some "Session expirée ou invalide") none
      = RouteView.redirectToLogin := by
  have h1 := c9_protected_route_amended (some exampleUser) false none (some [Role.expert])
  have h2 := c9_protected_route_amended none false (some "Session expirée ou invalide") none
  exact ⟨h1.1.mpr ⟨rfl, rfl, exampleUser, rfl, Or.inr ⟨[Role.expert], rfl, by decide⟩⟩,
         h2.2.2.1 rfl (by decide) rfl⟩

/-! ## Slug lemmas -/

theorem isSlugChar_ne_dash {c : Char} (h : isSlugChar c = true) : c ≠ '-' := by
  intro heq
  subst heq
  exact absurd h (by decide)

theorem jsToLower_fix {c : Char} (h : slugOrDash c = true) : jsToLower c = c := by
  simp only [slugOrDash, Bool.or_eq_true, beq_iff_eq] at h
  rcases h with h | h
  · simp only [isSlugChar, Bool.or_eq_true, Bool.and_eq_true, decide_eq_true_eq] at h
    rw [jsToLower, if_neg (by omega)]
  · subst h
    decide

theorem map_jsToLower_id {l : List Char} (h : l.all slugOrDash = true) :
    l.map jsToLower = l := by
  induction l with
  | nil => rfl
  | cons c rest ih =>
    simp only [List.all_cons, Bool.and_eq_true] at h
    simp only [List.map_cons, jsToLower_fix h.1, ih h.2]

theorem mem_collapseRuns {c : Char} {l : List Char} (h : c ∈ collapseRuns l) :
    slugOrDash c = true := by
  induction l using collapseRuns.induct with
  | case1 => simp [collapseRuns] at h
  | case2 d rest hd ih =>
    rw [collapseRuns, if_pos hd] at h
    rcases List.mem_cons.mp h with rfl | h
    · simp [slugOrDash, hd]
    · exact ih h
  | case3 d rest hd ih =>
    rw [collapseRuns, if_neg hd] at h
    rcases List.mem_cons.mp h with rfl | h
    · decide
    · exact ih h

theorem isSlug_head_dropWhile {l : List Char} {d : Char} {t : List Char}
    (h : l.dropWhile (fun x => !isSlugChar x) = d :: t) : isSlugChar d = true := by
  have hh := List.head?_dropWhile_not (fun x => !isSlugChar x) l
  rw [h] at hh
  simpa using hh

theorem noDoubleDash_tail {a : Char} {l : List Char}
    (h : noDoubleDash (a :: l) = true) : noDoubleDash l = true := by
  cases l with
  | nil => rfl
  | cons b t =>
    rw [noDoubleDash, Bool.and_eq_true] at h
    exact h.2

theorem noDoubleDash_cons_of_ne_dash {a : Char} {l : List Char}
    (ha : a ≠ '-') (hl : noDoubleDash l = true) : noDoubleDash (a :: l) = true := by
  cases l with
  | nil => rfl
  | cons b t =>
    rw [noDoubleDash, Bool.and_eq_true]
    refine ⟨?_, hl⟩
    have : (a == '-') = false := by
      simpa using ha
    simp [this]

theorem noDoubleDash_collapseRuns (l : List Char) :
    noDoubleDash (collapseRuns l) = true := by
  induction l using collapseRuns.induct with
  | case1 => simp [collapseRuns, noDoubleDash]
  | case2 d rest hd ih =>
    rw [collapseRuns, if_pos hd]
    exact noDoubleDash_cons_of_ne_dash (isSlugChar_ne_dash hd) ih
  | case3 d rest hd ih =>
    rw [collapseRuns, if_neg hd]
    cases hdw : rest.dropWhile (fun x => !isSlugChar x) with
    | nil =>
      rw [collapseRuns]
      rfl
    | cons e t =>
      have he : isSlugChar e = true := isSlug_head_dropWhile hdw
      rw [hdw] at ih
      rw [collapseRuns, if_pos he] at ih ⊢
      rw [noDoubleDash, Bool.and_eq_true]
      refine ⟨?_, ih⟩
      have : (e == '-') = false := by
        simpa using isSlugChar_ne_dash he
      simp [this]

theorem collapseRuns_fix : ∀ {l : List Char},
    l.all slugOrDash = true → noDoubleDash l = true → collapseRuns l = l := by
  intro l
  induction l with
  | nil => intro _ _; rw [collapseRuns]
  | cons c rest ih =>
    intro hall hnd
    simp only [List.all_cons, Bool.and_eq_true] at hall
    by_cases hs : isSlugChar c = true
    · rw [collapseRuns, if_pos hs, ih hall.2 (noDoubleDash_tail hnd)]
    · have hc : c = '-' := by
        have h1 := hall.1
        simp only [slugOrDash, Bool.or_eq_true, beq_iff_eq] at h1
        rcases h1 with h1 | h1
        · exact absurd h1 hs
        · exact h1
      subst hc
      rw [collapseRuns, if_neg hs]
      cases rest with
      | nil => rw [List.dropWhile_nil, collapseRuns]
      | cons d t =>
        have hpair : (d == '-') = false ∧ noDoubleDash (d :: t) = true := by
          rw [noDoubleDash, Bool.and_eq_true] at hnd
          refine ⟨?_, hnd.2⟩
          have h1 := hnd.1
          simpa using h1
        have hds : isSlugChar d = true := by
          have h2 := hall.2
          simp only [List.all_cons, Bool.and_eq_true] at h2
          have h3 := h2.1
          simp only [slugOrDash, Bool.or_eq_true] at h3
          rcases h3 with h3 | h3
          · exact h3
          · rw [hpair.1] at h3
            cases h3
        have hdw : (d :: t).dropWhile (fun x => !isSlugChar x) = d :: t :=
          List.dropWhile_cons_of_neg (by simp [hds])
        rw [hdw, ih hall.2 hpair.2]

theorem head?_dropWhile_dash_ne (l : List Char) :
    (l.dropWhile (fun c => c == '-')).head? ≠ some '-' := by
  intro hc
  have h := List.head?_dropWhile_not (fun c => c == '-') l
  rw [hc] at h
  simp at h

theorem head?_of_rdropWhile_eq_some {p : Char → Bool} {l : List Char} {a : Char}
    (h : (List.rdropWhile p l).head? = some a) : l.head? = some a := by
  obtain ⟨r, hr⟩ := List.rdropWhile_prefix p l
  cases hcl : List.rdropWhile p l with
  | nil => rw [hcl] at h; cases h
  | cons b t =>
    rw [hcl] at h hr
    rw [← hr]
    simpa using h

theorem noDoubleDash_append_right : ∀ {l1 l2 : List Char},
    noDoubleDash (l1 ++ l2) = true → noDoubleDash l2 = true := by
  intro l1
  induction l1 with
  | nil => intro l2 h; simpa using h
  | cons a t ih =>
    intro l2 h
    rw [List.cons_append] at h
    exact ih (noDoubleDash_tail h)

theorem noDoubleDash_append_left : ∀ {l1 l2 : List Char},
    noDoubleDash (l1 ++ l2) = true → noDoubleDash l1 = true := by
  intro l1
  induction l1 with
  | nil => intro _ _; rfl
  | cons a t ih =>
    intro l2 h
    rw [List.cons_append] at h
    cases t with
    | nil => rfl
    | cons b t2 =>
      rw [List.cons_append] at h
      rw [noDoubleDash, Bool.and_eq_true] at h
      rw [noDoubleDash, Bool.and_eq_true]
      refine ⟨h.1, ?_⟩
      apply @ih l2
      rw [List.cons_append]
      exact h.2

theorem dropWhile_dash_eq_self {l : List Char} (h : l.head? ≠ some '-') :
    l.dropWhile (fun c => c == '-') = l := by
  cases l with
  | nil => rfl
  | cons a t =>
    have ha : a ≠ '-' := by
      intro heq
      exact h (by rw [heq]; rfl)
    exact List.dropWhile_cons_of_neg (by simpa using ha)

theorem rdropWhile_dash_eq_self {l : List Char} (h : l.getLast? ≠ some '-') :
    List.rdropWhile (fun c => c == '-') l = l := by
  apply List.rdropWhile_eq_self_iff.mpr
  intro hl hp
  apply h
  rw [List.getLast?_eq_getLast l hl]
  have : l.getLast hl = '-' := by simpa using hp
  rw [this]

theorem createSlug_all (t : List Char) : (createSlug t).all slugOrDash = true := by
  apply List.all_eq_true.mpr
  intro c hc
  have hc1 : c ∈ (collapseRuns (t.map jsToLower)).dropWhile (fun c => c == '-') :=
    ((List.rdropWhile_prefix _ _).sublist).subset hc
  have hc2 : c ∈ collapseRuns (t.map jsToLower) := List.dropWhile_subset _ hc1
  exact mem_collapseRuns hc2

theorem createSlug_head (t : List Char) : (createSlug t).head? ≠ some '-' := by
  intro hc
  exact head?_dropWhile_dash_ne (collapseRuns (t.map jsToLower))
    (head?_of_rdropWhile_eq_some hc)

theorem createSlug_last (t : List Char) : (createSlug t).getLast? ≠ some '-' := by
  intro hc
  have hne : createSlug t ≠ [] := by
    intro hnil
    rw [hnil] at hc
    cases hc
  rw [List.getLast?_eq_getLast (createSlug t) hne] at hc
  have hlast : (createSlug t).getLast hne = '-' := by injection hc
  have hnot := List.rdropWhile_last_not (fun c => c == '-')
    ((collapseRuns (t.map jsToLower)).dropWhile (fun c => c == '-')) hne
  apply hnot
  show ((createSlug t).getLast hne == '-') = true
  rw [hlast]
  decide

theorem createSlug_noDoubleDash (t : List Char) :
    noDoubleDash (createSlug t) = true := by
  have h0 := noDoubleDash_collapseRuns (t.map jsToLower)
  have h1 : noDoubleDash
      ((collapseRuns (t.map jsToLower)).dropWhile (fun c => c == '-')) = true := by
    apply noDoubleDash_append_right
    rw [List.takeWhile_append_dropWhile]
    exact h0
  obtain ⟨r, hr⟩ := List.rdropWhile_prefix (fun c => c == '-')
    ((collapseRuns (t.map jsToLower)).dropWhile (fun c => c == '-'))
  apply @noDoubleDash_append_left _ r
  have hcs : createSlug t = List.rdropWhile (fun c => c == '-')
      ((collapseRuns (t.map jsToLower)).dropWhile (fun c => c == '-')) := rfl
  rw [hcs, hr]
  exact h1

theorem createSlug_idempotent (t : List Char) :
    createSlug (createSlug t) = createSlug t := by
  have hall := createSlug_all t
  have hnd := createSlug_noDoubleDash t
  have hhead := createSlug_head t
  have hlast := createSlug_last t
  show List.rdropWhile (fun c => c == '-')
      ((collapseRuns ((createSlug t).map jsToLower)).dropWhile (fun c => c == '-'))
    = createSlug t
  rw [map_jsToLower_id hall, collapseRuns_fix hall hnd, dropWhile_dash_eq_self hhead,
      rdropWhile_dash_eq_self hlast]

/-- C6: the report is saved as `rapport_` + slug + `.pdf`, where for
every title the slug contains only `a–z`, `0–9` and `'-'`, starts and
ends with no `'-'`, and `createSlug` is idempotent. -/
theorem c6_slug_filename_properties (title : List Char) :
    reportFileName title = "rapport_".toList ++ createSlug title ++ ".pdf".toList
    ∧ (createSlug title).all slugOrDash = true
    ∧ (createSlug title).head? ≠ some '-'
    ∧ (createSlug title).getLast? ≠ some '-'
    ∧ createSlug (createSlug title) = createSlug title :=
  ⟨rfl, createSlug_all title, createSlug_head title, createSlug_last title,
   createSlug_idempotent title⟩

theorem c6_slug_filename_properties_witness :
    (createSlug ("Mission Alpha 2024".toList)).all slugOrDash = true
    ∧ createSlug (createSlug ("Mission Alpha 2024".toList))
        = createSlug ("Mission Alpha 2024".toList) :=
  ⟨(c6_slug_filename_properties ("Mission Alpha 2024".toList)).2.1,
   (c6_slug_filename_properties ("Mission Alpha 2024".toList)).2.2.2.2⟩

end App
